import Mathlib

/-!
safe-speak: the client view controller of `frontend/src/App.js`.

A shallow embedding of the React component `App`:

* the six `useState` cells become the record `ViewState`;
* the two `async` click handlers `analyzeVideo` and `testSingleComment` are split at their
  `await`: the synchronous prefix is a function on `World` (view state, network log, pending
  continuations), the part after the `await` (`try` / `catch` / `finally`) is a function on
  `ViewState` that is run when the request resolves;
* the two buttons run their handler on a click only while they are not `disabled`
  (`loading || !videoUrl`, `loading || !testComment`);
* `getToxicityBadges` and the two result panels of the JSX are pure functions of the data.

Numbers of the JSON payloads are finite IEEE doubles; a finite double is a rational number and
`>` on doubles compares these exact values, so scores are embedded as `ℚ`.  Locale- and
float-formatting primitives of the platform (`toFixed`, `toLocaleDateString`,
`toLocaleString`) are parameters, collected in `Platform`.
-/

namespace SafeSpeak

/-! ## JavaScript values on the failure path -/

/-- JavaScript values, as far as `err.response?.data?.error || fallback` can tell them apart. -/
inductive JsVal where
  | undefined
  | null
  | bool (b : Bool)
  | num (q : ℚ)
  | str (s : String)
  | obj (fields : List (String × JsVal))

/-- JavaScript truthiness (`ToBoolean`): `undefined`, `null`, `false`, `0` and `''` are falsy,
every object is truthy. -/
def JsVal.truthy : JsVal → Bool
  | .undefined => false
  | .null => false
  | .bool b => b
  | .num q => decide (q ≠ 0)
  | .str s => decide (s ≠ "")
  | .obj _ => true

/-- The expression `a || b`: `a` when `a` is truthy, else `b`. -/
def JsVal.or (a b : JsVal) : JsVal :=
  if a.truthy then a else b

/-- The expression `v?.key`: `undefined` when `v` is `undefined` or `null`, otherwise the
property `key` of `v` (`undefined` when `v` has no such property; the primitives have no
property called `data` or `error`). -/
def JsVal.optChain (v : JsVal) (key : String) : JsVal :=
  match v with
  | .obj fields => (fields.lookup key).getD .undefined
  | _ => .undefined

/-- The own property `key` of `v`, when `v` is an object that has one: presence of a field in
a response body. -/
def JsVal.field? (v : JsVal) (key : String) : Option JsVal :=
  match v with
  | .obj fields => fields.lookup key
  | _ => none

/-- The error object that `axios.post` rejects with: `err.response` is `undefined` when no
response was received. -/
structure AxiosError where
  response : JsVal

/-! ## Payloads of the two endpoints -/

/-- A JavaScript object with values of type `α`, given as its own enumerable string-keyed
properties in iteration order, i.e. as what `Object.entries` returns. -/
abbrev JsObject (α : Type) := List (String × α)

/-- `Object.entries(o)`. -/
def Object.entries {α : Type} (o : JsObject α) : List (String × α) := o

/-- The `analysis` / `toxicity_analysis` object. -/
structure ToxicityAnalysis where
  scores : JsObject ℚ
  max_toxicity_score : ℚ
  is_toxic : Bool
  deriving DecidableEq

/-- An element of `toxic_comments`. -/
structure CommentRecord where
  author : String
  text : String
  published_at : String
  likes : Int
  toxicity_analysis : ToxicityAnalysis
  deriving DecidableEq

/-- The `video_info` object. -/
structure VideoInfo where
  title : String
  channel : String
  view_count : String
  comment_count : String
  deriving DecidableEq

/-- The `analysis_summary` object. -/
structure AnalysisSummary where
  total_comments_analyzed : Int
  toxic_comments_found : Int
  toxicity_percentage : ℚ
  deriving DecidableEq

/-- The success body of `POST /api/analyze-video`. -/
structure VideoAnalysisResult where
  video_info : VideoInfo
  analysis_summary : AnalysisSummary
  toxic_comments : List CommentRecord
  deriving DecidableEq

/-- The success body of `POST /api/test-comment`. -/
structure CommentTestResult where
  comment : String
  analysis : ToxicityAnalysis
  deriving DecidableEq

/-- How an awaited `axios.post` settles: fulfilled with `response.data`, or rejected. -/
inductive Outcome (α : Type) where
  | success (data : α)
  | failure (err : AxiosError)

/-! ## View state and the network -/

/-- The six `useState` cells of `App`, with `null` as `none`. -/
structure ViewState where
  videoUrl : String
  loading : Bool
  results : Option VideoAnalysisResult
  error : JsVal
  testComment : String
  testResults : Option CommentTestResult

/-- The initial values passed to `useState`. -/
def ViewState.initial : ViewState :=
  { videoUrl := "", loading := false, results := none, error := .str "",
    testComment := "", testResults := none }

/-- A call `axios.post(url, body)`; `body` lists the fields of the object literal. -/
structure Request where
  method : String
  url : String
  body : List (String × String)
  deriving DecidableEq

/-- Which handler is suspended at its `await`. -/
inductive Pending where
  | video
  | comment
  deriving DecidableEq

/-- The component together with its environment: the view state, every request issued so far
(oldest first) and the handlers still awaiting their response (oldest first). -/
structure World where
  view : ViewState
  sent : List Request
  pending : List Pending

/-- The freshly mounted component: initial state, nothing sent, nothing pending. -/
def World.initial : World :=
  { view := ViewState.initial, sent := [], pending := [] }

/-! ## The two handlers -/

/-- The handler `analyzeVideo` up to its `await` (lines 13-26). -/
def analyzeVideo (w : World) : World :=
  if w.view.videoUrl = "" then
    { w with view := { w.view with error := .str "Please provide a YouTube URL" } }
  else
    { view := { w.view with loading := true, error := .str "", results := none }
      sent := w.sent ++ [⟨"POST", "/api/analyze-video", [("video_url", w.view.videoUrl)]⟩]
      pending := w.pending ++ [.video] }

/-- The handler `analyzeVideo` after its `await` (lines 28-33): `try` stores the data, `catch`
stores the message, `finally` clears `loading`. -/
def analyzeVideoResume (v : ViewState) (o : Outcome VideoAnalysisResult) : ViewState :=
  let v1 : ViewState :=
    match o with
    | .success data => { v with results := some data }
    | .failure err =>
      { v with error :=
          (((err.response.optChain "data").optChain "error").or
            (.str "Failed to analyze video")) }
  { v1 with loading := false }

/-- The handler `testSingleComment` up to its `await` (lines 36-48). -/
def testSingleComment (w : World) : World :=
  if w.view.testComment = "" then
    { w with view := { w.view with error := .str "Please enter a comment to test" } }
  else
    { view := { w.view with loading := true, error := .str "" }
      sent := w.sent ++ [⟨"POST", "/api/test-comment", [("comment", w.view.testComment)]⟩]
      pending := w.pending ++ [.comment] }

/-- The handler `testSingleComment` after its `await` (lines 50-55). -/
def testSingleCommentResume (v : ViewState) (o : Outcome CommentTestResult) : ViewState :=
  let v1 : ViewState :=
    match o with
    | .success data => { v with testResults := some data }
    | .failure err =>
      { v with error :=
          (((err.response.optChain "data").optChain "error").or
            (.str "Failed to test comment")) }
  { v1 with loading := false }

/-- The `disabled` attribute of the Analyze button (line 118): `loading || !videoUrl`. -/
def analyzeDisabled (v : ViewState) : Bool :=
  v.loading || decide (v.videoUrl = "")

/-- The `disabled` attribute of the Test button (line 141): `loading || !testComment`. -/
def testDisabled (v : ViewState) : Bool :=
  v.loading || decide (v.testComment = "")

/-- What can happen to the component.  The mounted component produces the two `onChange`
events, clicks on its two buttons and the settling of the `i`-th pending request.  The two
`call` events run a handler whatever the state of its button; no element of the JSX does
that, they are there so that a property of all event sequences covers every interleaving of
handler invocations and not only those the buttons let through. -/
inductive Event where
  | setVideoUrl (s : String)
  | setTestComment (s : String)
  | clickAnalyze
  | clickTest
  | callAnalyzeVideo
  | callTestSingleComment
  | resolveVideo (i : Nat) (o : Outcome VideoAnalysisResult)
  | resolveComment (i : Nat) (o : Outcome CommentTestResult)

/-- The events that the mounted component produces: all but the direct handler calls. -/
def Event.viaUi : Event → Bool
  | .callAnalyzeVideo => false
  | .callTestSingleComment => false
  | _ => true

/-- One event.  A click runs the `onClick` handler of the button unless the button is
disabled (lines 115-119, 138-142).  Settling a request resumes the handler that awaits it and
removes it from `pending`; a settle event that names no pending request of its kind does
nothing. -/
def step (w : World) : Event → World
  | .setVideoUrl s => { w with view := { w.view with videoUrl := s } }
  | .setTestComment s => { w with view := { w.view with testComment := s } }
  | .clickAnalyze => if analyzeDisabled w.view then w else analyzeVideo w
  | .clickTest => if testDisabled w.view then w else testSingleComment w
  | .callAnalyzeVideo => analyzeVideo w
  | .callTestSingleComment => testSingleComment w
  | .resolveVideo i o =>
    if w.pending[i]? = some .video then
      { w with view := analyzeVideoResume w.view o, pending := w.pending.eraseIdx i }
    else w
  | .resolveComment i o =>
    if w.pending[i]? = some .comment then
      { w with view := testSingleCommentResume w.view o, pending := w.pending.eraseIdx i }
    else w

/-- A sequence of events, oldest first. -/
def run (w : World) (es : List Event) : World :=
  es.foldl step w

/-! ## Presentation logic -/

/-- Formatting primitives of the platform that depend on float printing or on the locale. -/
structure Platform where
  /-- The text `(x * 100).toFixed(d)`, as a function of `x` and `d`. -/
  pctFixed : ℚ → Nat → String
  /-- The text `new Date(s).toLocaleDateString()`. -/
  toLocaleDateString : String → String
  /-- The text `parseInt(s).toLocaleString()`. -/
  parseIntLocale : String → String

/-- The function `formatDate` (lines 58-60). -/
def formatDate (P : Platform) (dateString : String) : String :=
  P.toLocaleDateString dateString

/-- On the characters of a string, `replace(pat, rep)` with one-character string arguments:
the first occurrence of `pat` is replaced, the rest of the string is kept. -/
def replaceChars (pat rep : Char) : List Char → List Char
  | [] => []
  | c :: cs => if c = pat then rep :: cs else c :: replaceChars pat rep cs

/-- The method call `s.replace(pat, rep)` of `String.prototype`, for one-character strings
`pat` and `rep`. -/
def jsReplace (s : String) (pat rep : Char) : String :=
  ⟨replaceChars pat rep s.data⟩

/-- Every occurrence of `pat` replaced by `rep`: what "each underscore rendered as a space"
asks of a category name. -/
def replaceEvery (pat rep : Char) (s : String) : String :=
  ⟨s.data.map (fun c => if c = pat then rep else c)⟩

/-- The `span` element built by `getToxicityBadges`: its `key`, `className` and `title`
attributes and its text content. -/
structure Badge where
  key : String
  className : String
  title : String
  text : String
  deriving DecidableEq

/-- The arrow function passed to `map` in `getToxicityBadges` (lines 66-74). -/
def badgeOf (P : Platform) (entry : String × ℚ) : Badge :=
  { key := entry.1
    className := "toxicity-badge " ++ entry.1
    title := entry.1 ++ ": " ++ P.pctFixed entry.2 1 ++ "%"
    text := jsReplace entry.1 '_' ' '
      ++ " (" ++ P.pctFixed entry.2 0 ++ "%)" }

/-- The function `getToxicityBadges` (lines 62-75). -/
def getToxicityBadges (P : Platform) (scores : JsObject ℚ) : List Badge :=
  let categories := Object.entries scores
  (categories.filter (fun entry => decide (entry.2 > 1 / 2))).map (badgeOf P)

/-- The block rendered for a truthy `testResults` (lines 146-161). -/
structure TestPanel where
  commentText : String
  scoreText : String
  badges : List Badge
  deriving DecidableEq

/-- The JSX expression `testResults && (...)`; `none` when nothing is rendered. -/
def renderTestResults (P : Platform) (testResults : Option CommentTestResult) :
    Option TestPanel :=
  testResults.map fun t =>
    { commentText := t.comment
      scoreText := "Toxicity Score: " ++ P.pctFixed t.analysis.max_toxicity_score 1 ++ "%"
      badges := if t.analysis.is_toxic then getToxicityBadges P t.analysis.scores else [] }

/-- One `comment-card` of the results panel (lines 210-223). -/
structure CommentCard where
  key : Nat
  author : String
  date : String
  text : String
  likes : Int
  scoreText : String
  badges : List Badge
  deriving DecidableEq

/-- The arrow function passed to `map` over `toxic_comments` (lines 209-224). -/
def commentCard (P : Platform) (comment : CommentRecord) (index : Nat) : CommentCard :=
  { key := index
    author := comment.author
    date := formatDate P comment.published_at
    text := comment.text
    likes := comment.likes
    scoreText := "Toxicity Score: "
      ++ P.pctFixed comment.toxicity_analysis.max_toxicity_score 1 ++ "%"
    badges := getToxicityBadges P comment.toxicity_analysis.scores }

/-- The method `arr.map((x, index) => f(x, index))`. -/
def mapWithIndex {α β : Type} (f : α → Nat → β) (xs : List α) : List β :=
  (xs.enum).map fun p => f p.2 p.1

/-- The block rendered for a truthy `results` (lines 177-232): the four `stat-number` cells,
the channel lines, and either the comment cards or the "no toxic comments" notice. -/
structure ResultsPanel where
  videoTitle : String
  commentsAnalyzed : Int
  toxicCommentsFound : Int
  toxicityRate : ℚ
  channel : String
  views : String
  totalComments : String
  cards : List CommentCard
  noToxicNotice : Bool
  deriving DecidableEq

/-- The JSX expression `results && (...)`; `none` when nothing is rendered. -/
def renderResults (P : Platform) (results : Option VideoAnalysisResult) :
    Option ResultsPanel :=
  results.map fun r =>
    { videoTitle := r.video_info.title
      commentsAnalyzed := r.analysis_summary.total_comments_analyzed
      toxicCommentsFound := r.analysis_summary.toxic_comments_found
      toxicityRate := r.analysis_summary.toxicity_percentage
      channel := r.video_info.channel
      views := P.parseIntLocale r.video_info.view_count
      totalComments := P.parseIntLocale r.video_info.comment_count
      cards := if r.toxic_comments.length > 0 then mapWithIndex (commentCard P) r.toxic_comments
        else []
      noToxicNotice := !(decide (r.toxic_comments.length > 0)) }

/-! ## Vocabulary of the properties -/

/-- A string that is empty or consists only of white space. -/
def isBlank (s : String) : Bool :=
  s.data.all Char.isWhitespace

/-- A platform on which to evaluate the presentation logic where the printed digits do not
matter: every percentage prints as `90`, dates and counts print as they are given. -/
def constPlatform : Platform :=
  { pctFixed := fun _ _ => "90"
    toLocaleDateString := fun s => s
    parseIntLocale := fun s => s }

/-- A world in the initial state apart from the two input fields. -/
def worldWithInputs (url comment : String) : World :=
  { World.initial with
    view := { ViewState.initial with videoUrl := url, testComment := comment } }

/-- A world with both input fields empty, a stale error on display and a comment request in
flight. -/
def busyWorld : World :=
  { view := { ViewState.initial with loading := true, error := .str "old" }
    sent := [⟨"POST", "/api/test-comment", [("comment", "hi")]⟩]
    pending := [.comment] }

/-- A comment-test response flagged toxic. -/
def sampleTestResult : CommentTestResult :=
  ⟨"old", ⟨[("toxic", 9 / 10)], 9 / 10, true⟩⟩

/-- A comment-test response that is not flagged toxic although two scores exceed 0.5. -/
def unflaggedTestResult : CommentTestResult :=
  ⟨"hi", ⟨[("toxic", 9 / 10), ("insult", 3 / 10), ("threat", 6 / 10)], 9 / 10, false⟩⟩

/-- A video-analysis response without toxic comments. -/
def sampleVideoResult : VideoAnalysisResult :=
  ⟨⟨"t", "c", "10", "3"⟩, ⟨3, 0, 0⟩, []⟩

/-- A world that displays earlier results of both kinds and has the comment `hello` typed
in. -/
def displayingWorld : World :=
  { view := { ViewState.initial with
              testComment := "hello"
              testResults := some sampleTestResult
              results := some sampleVideoResult }
    sent := []
    pending := [] }

/-- The three cells that the video-analysis flow writes: `results`, `error`, `loading`. -/
def ViewState.videoCells (v : ViewState) : Option VideoAnalysisResult × JsVal × Bool :=
  (v.results, v.error, v.loading)

/-- In the mounted component `pending` holds one request while `loading` is true and none
otherwise. -/
def Settled (w : World) : Prop :=
  w.pending.length = if w.view.loading then 1 else 0

/-! ## Lists of pending requests -/

theorem getElem?_snoc_length {α : Type} (l : List α) (a : α) :
    (l ++ [a])[l.length]? = some a := by
  simp

theorem eraseIdx_snoc_length {α : Type} (l : List α) (a : α) :
    (l ++ [a]).eraseIdx l.length = l := by
  induction l with
  | nil => rfl
  | cons x xs ih => simpa using ih

/-! ## Validation of the input fields -/

/-- C1 (as amended): when the input field is the empty string, `analyzeVideo` (resp.
`testSingleComment`) issues no request, suspends no handler, and changes the view state only
by setting the error message to "Please provide a YouTube URL" (resp. "Please enter a comment
to test"), whatever the prior state. -/
theorem empty_input_rejected_without_request (w : World) :
    (w.view.videoUrl = "" →
      (analyzeVideo w).sent = w.sent ∧ (analyzeVideo w).pending = w.pending ∧
      (analyzeVideo w).view = { w.view with error := .str "Please provide a YouTube URL" }) ∧
    (w.view.testComment = "" →
      (testSingleComment w).sent = w.sent ∧ (testSingleComment w).pending = w.pending ∧
      (testSingleComment w).view =
        { w.view with error := .str "Please enter a comment to test" }) := by
  constructor
  · intro h
    simp [analyzeVideo, h]
  · intro h
    simp [testSingleComment, h]

/-- Witness for C1 (as amended): a world with both fields empty, a stale error and a request
in flight. -/
theorem empty_input_rejected_without_request_witness :
    (busyWorld.view.videoUrl = "" ∧ busyWorld.view.testComment = "") ∧
    ((analyzeVideo busyWorld).sent = busyWorld.sent ∧
      (analyzeVideo busyWorld).pending = busyWorld.pending ∧
      (analyzeVideo busyWorld).view =
        { busyWorld.view with error := .str "Please provide a YouTube URL" }) ∧
    ((testSingleComment busyWorld).sent = busyWorld.sent ∧
      (testSingleComment busyWorld).pending = busyWorld.pending ∧
      (testSingleComment busyWorld).view =
        { busyWorld.view with error := .str "Please enter a comment to test" }) :=
  ⟨⟨rfl, rfl⟩,
    (empty_input_rejected_without_request busyWorld).1 rfl,
    (empty_input_rejected_without_request busyWorld).2 rfl⟩

/-- C1 fails as stated: with a url (resp. comment) that is a single space, which is
white space only, `analyzeVideo` (resp. `testSingleComment`) issues a POST and sets the error
to the empty string instead of the validation message. -/
theorem whitespace_input_is_submitted :
    isBlank (worldWithInputs " " " ").view.videoUrl = true ∧
    isBlank (worldWithInputs " " " ").view.testComment = true ∧
    (analyzeVideo (worldWithInputs " " " ")).sent =
      [⟨"POST", "/api/analyze-video", [("video_url", " ")]⟩] ∧
    (analyzeVideo (worldWithInputs " " " ")).view.error = .str "" ∧
    (analyzeVideo (worldWithInputs " " " ")).view.error ≠
      .str "Please provide a YouTube URL" ∧
    (testSingleComment (worldWithInputs " " " ")).sent =
      [⟨"POST", "/api/test-comment", [("comment", " ")]⟩] ∧
    (testSingleComment (worldWithInputs " " " ")).view.error = .str "" ∧
    (testSingleComment (worldWithInputs " " " ")).view.error ≠
      .str "Please enter a comment to test" := by
  refine ⟨by decide, by decide, ?_, ?_, ?_, ?_, ?_, ?_⟩ <;>
    simp [analyzeVideo, testSingleComment, worldWithInputs, World.initial, ViewState.initial]

/-! ## The message stored on failure -/

theorem or_of_truthy (a b : JsVal) (h : a.truthy = true) : a.or b = a := by
  simp [JsVal.or, h]

theorem or_of_falsy (a b : JsVal) (h : a.truthy = false) : a.or b = b := by
  simp [JsVal.or, h]

theorem optChain_of_field? (v : JsVal) (key : String) (x : JsVal)
    (h : v.field? key = some x) : v.optChain key = x := by
  cases v <;> simp_all [JsVal.field?, JsVal.optChain]

theorem optChain_of_no_field (v : JsVal) (key : String)
    (h : v.field? key = none) : v.optChain key = .undefined := by
  cases v with
  | obj fields =>
    have h1 : fields.lookup key = none := h
    simp only [JsVal.optChain, h1, Option.getD_none]
  | _ => rfl

theorem error_of_analyzeVideoResume (v : ViewState) (err : AxiosError) :
    (analyzeVideoResume v (.failure err)).error =
      ((err.response.optChain "data").optChain "error").or (.str "Failed to analyze video") :=
  rfl

theorem error_of_testSingleCommentResume (v : ViewState) (err : AxiosError) :
    (testSingleCommentResume v (.failure err)).error =
      ((err.response.optChain "data").optChain "error").or (.str "Failed to test comment") :=
  rfl

/-- C2 (as amended): for every failed request of either action, the stored error message
equals the value of the `error` field of the error response body whenever that field is
present and truthy (a non-empty string, for instance), and equals the action's fixed fallback
("Failed to analyze video", "Failed to test comment") when the field is present but falsy
(the empty string, `0`, `false`, `null`) or absent (no response, no body, no `error` key); a
body `{error: "quota exceeded"}` on comment test stores exactly "quota exceeded". -/
theorem failure_message_from_error_field (v : ViewState) (err : AxiosError) :
    (∀ x, (err.response.optChain "data").field? "error" = some x → x.truthy = true →
      (analyzeVideoResume v (.failure err)).error = x ∧
      (testSingleCommentResume v (.failure err)).error = x) ∧
    (∀ x, (err.response.optChain "data").field? "error" = some x → x.truthy = false →
      (analyzeVideoResume v (.failure err)).error = .str "Failed to analyze video" ∧
      (testSingleCommentResume v (.failure err)).error = .str "Failed to test comment") ∧
    ((err.response.field? "data" = none ∨
        (err.response.optChain "data").field? "error" = none) →
      (analyzeVideoResume v (.failure err)).error = .str "Failed to analyze video" ∧
      (testSingleCommentResume v (.failure err)).error = .str "Failed to test comment") ∧
    (testSingleCommentResume v
      (.failure ⟨.obj [("status", .num 429),
        ("data", .obj [("error", .str "quota exceeded")])]⟩)).error = .str "quota exceeded" := by
  refine ⟨?_, ?_, ?_, ?_⟩
  · intro x hx ht
    rw [error_of_analyzeVideoResume, error_of_testSingleCommentResume,
      optChain_of_field? _ _ _ hx]
    exact ⟨or_of_truthy _ _ ht, or_of_truthy _ _ ht⟩
  · intro x hx hf
    rw [error_of_analyzeVideoResume, error_of_testSingleCommentResume,
      optChain_of_field? _ _ _ hx]
    exact ⟨or_of_falsy _ _ hf, or_of_falsy _ _ hf⟩
  · intro h
    have hu : (err.response.optChain "data").optChain "error" = .undefined := by
      rcases h with h | h
      · rw [optChain_of_no_field _ _ h]
        rfl
      · exact optChain_of_no_field _ _ h
    rw [error_of_analyzeVideoResume, error_of_testSingleCommentResume, hu]
    exact ⟨rfl, rfl⟩
  · rw [error_of_testSingleCommentResume]
    simp [JsVal.optChain, JsVal.or, JsVal.truthy, List.lookup]

/-- Witness for C2 (as amended): a rejection whose body is `{error: "Video not found"}`, one
whose body is `{error: ""}`, and one without a response. -/
theorem failure_message_from_error_field_witness :
    ((analyzeVideoResume ViewState.initial
        (.failure ⟨.obj [("data", .obj [("error", .str "Video not found")])]⟩)).error =
          .str "Video not found" ∧
      (testSingleCommentResume ViewState.initial
        (.failure ⟨.obj [("data", .obj [("error", .str "Video not found")])]⟩)).error =
          .str "Video not found") ∧
    ((analyzeVideoResume ViewState.initial
        (.failure ⟨.obj [("data", .obj [("error", .str "")])]⟩)).error =
          .str "Failed to analyze video" ∧
      (testSingleCommentResume ViewState.initial
        (.failure ⟨.obj [("data", .obj [("error", .str "")])]⟩)).error =
          .str "Failed to test comment") ∧
    ((analyzeVideoResume ViewState.initial (.failure ⟨.undefined⟩)).error =
          .str "Failed to analyze video" ∧
      (testSingleCommentResume ViewState.initial (.failure ⟨.undefined⟩)).error =
          .str "Failed to test comment") :=
  ⟨(failure_message_from_error_field ViewState.initial
      ⟨.obj [("data", .obj [("error", .str "Video not found")])]⟩).1
      (.str "Video not found") (by simp [JsVal.optChain, JsVal.field?, List.lookup])
      (by simp [JsVal.truthy]),
    (failure_message_from_error_field ViewState.initial
      ⟨.obj [("data", .obj [("error", .str "")])]⟩).2.1
      (.str "") (by simp [JsVal.optChain, JsVal.field?, List.lookup])
      (by simp [JsVal.truthy]),
    (failure_message_from_error_field ViewState.initial ⟨.undefined⟩).2.2.1
      (Or.inl rfl)⟩

/-- C2 fails as stated: on a rejection whose body is `{error: ""}` the `error` field is
present, yet both actions store their fallback text and not the value of the field. -/
theorem empty_error_field_gives_fallback :
    ((JsVal.obj [("data", .obj [("error", .str "")])]).optChain "data").field? "error" =
      some (.str "") ∧
    (analyzeVideoResume ViewState.initial
      (.failure ⟨.obj [("data", .obj [("error", .str "")])]⟩)).error =
        .str "Failed to analyze video" ∧
    (analyzeVideoResume ViewState.initial
      (.failure ⟨.obj [("data", .obj [("error", .str "")])]⟩)).error ≠ .str "" ∧
    (testSingleCommentResume ViewState.initial
      (.failure ⟨.obj [("data", .obj [("error", .str "")])]⟩)).error =
        .str "Failed to test comment" ∧
    (testSingleCommentResume ViewState.initial
      (.failure ⟨.obj [("data", .obj [("error", .str "")])]⟩)).error ≠ .str "" := by
  refine ⟨?_, ?_, ?_, ?_, ?_⟩ <;>
    simp [analyzeVideoResume, testSingleCommentResume, JsVal.optChain, JsVal.field?,
      JsVal.or, JsVal.truthy, List.lookup]

/-! ## Toxicity badges -/

theorem key_of_badgeOf (P : Platform) (entry : String × ℚ) : (badgeOf P entry).key = entry.1 :=
  rfl

theorem keys_of_getToxicityBadges (P : Platform) (scores : JsObject ℚ) :
    (getToxicityBadges P scores).map Badge.key =
      (scores.filter (fun entry => decide (1 / 2 < entry.2))).map Prod.fst := by
  simp only [getToxicityBadges, Object.entries, List.map_map, gt_iff_lt]
  apply List.map_congr_left
  intro entry _
  rfl

theorem getToxicityBadges_append (P : Platform) (xs ys : JsObject ℚ) :
    getToxicityBadges P (xs ++ ys) = getToxicityBadges P xs ++ getToxicityBadges P ys := by
  simp [getToxicityBadges, Object.entries]

/-- C3: for every scores mapping, given as its entries in iteration order,
`getToxicityBadges` returns one badge per entry whose score is strictly greater than 0.5 and
none for any other entry, in the order of the entries: the keys of the badges are the keys of
the entries above 0.5 in order (a sublist of all keys), there are as many badges as entries
above 0.5, an entry with score exactly 0.5 contributes nothing, and
`{toxic: 0.9, insult: 0.3, threat: 0.6}` yields the badges `toxic`, `threat`. -/
theorem getToxicityBadges_spec (P : Platform) (scores : JsObject ℚ) :
    (getToxicityBadges P scores).map Badge.key =
      (scores.filter (fun entry => decide (1 / 2 < entry.2))).map Prod.fst ∧
    List.Sublist ((getToxicityBadges P scores).map Badge.key) (scores.map Prod.fst) ∧
    (getToxicityBadges P scores).length =
      scores.countP (fun entry => decide (1 / 2 < entry.2)) ∧
    (∀ (before after : JsObject ℚ) (category : String),
      getToxicityBadges P (before ++ (category, 1 / 2) :: after) =
        getToxicityBadges P (before ++ after)) ∧
    (getToxicityBadges P [("toxic", 9 / 10), ("insult", 3 / 10), ("threat", 6 / 10)]).map
      Badge.key = ["toxic", "threat"] := by
  refine ⟨keys_of_getToxicityBadges P scores, ?_, ?_, ?_, ?_⟩
  · rw [keys_of_getToxicityBadges]
    exact List.Sublist.map _ (List.filter_sublist _)
  · rw [← List.length_map (getToxicityBadges P scores) Badge.key, keys_of_getToxicityBadges,
      List.length_map, List.countP_eq_length_filter]
  · intro before after category
    have h : getToxicityBadges P [(category, 1 / 2)] = [] := by
      simp [getToxicityBadges, Object.entries]
    rw [getToxicityBadges_append, getToxicityBadges_append,
      show (category, (1 / 2 : ℚ)) :: after = [(category, 1 / 2)] ++ after from rfl,
      getToxicityBadges_append, h, List.nil_append]
  · rw [keys_of_getToxicityBadges]
    norm_num [List.filter]

/-- C4 fails on the code: `replace` with a string pattern replaces the first underscore only.
For the category `a_b_c` with score 0.9 the badge text is `a b_c (90%)`: it still contains an
underscore of the category name and does not begin with `a b c`. -/
theorem badge_label_keeps_second_underscore :
    (getToxicityBadges constPlatform [("a_b_c", 9 / 10)]).map Badge.text = ["a b_c (90%)"] ∧
    replaceEvery '_' ' ' "a_b_c" = "a b c" ∧
    ¬ ("a b c".data <+: "a b_c (90%)".data) ∧
    '_' ∈ "a b_c (90%)".data := by
  refine ⟨?_, by decide, by decide, by decide⟩
  have h : getToxicityBadges constPlatform [("a_b_c", 9 / 10)] =
      [badgeOf constPlatform ("a_b_c", 9 / 10)] := by
    norm_num [getToxicityBadges, Object.entries, List.filter]
  rw [h]
  decide

/-- On a string with at most one occurrence of `pat`, replacing the first occurrence is
replacing every occurrence; the six category names of the server contract have at most one
underscore. -/
theorem jsReplace_eq_replaceEvery_of_count_le_one (s : String) (pat rep : Char)
    (h : s.data.count pat ≤ 1) : jsReplace s pat rep = replaceEvery pat rep s := by
  have key : ∀ cs : List Char, cs.count pat ≤ 1 →
      replaceChars pat rep cs = cs.map (fun c => if c = pat then rep else c) := by
    intro cs
    induction cs with
    | nil => intro _; rfl
    | cons c cs ih =>
      intro hc
      by_cases hcp : c = pat
      · subst hcp
        have h0 : cs.count c = 0 := by
          simp only [List.count_cons_self] at hc
          omega
        have hno : ∀ d ∈ cs, d ≠ c := by
          intro d hd hdc
          subst hdc
          exact absurd (List.count_pos_iff.mpr hd) (by omega)
        have hmap : cs.map (fun d => if d = c then rep else d) = cs := by
          conv_rhs => rw [← List.map_id cs]
          apply List.map_congr_left
          intro d hd
          simp [hno d hd]
        simp [replaceChars, hmap]
      · have hc2 : cs.count pat ≤ 1 := by
          rw [List.count_cons_of_ne (Ne.symm hcp)] at hc
          exact hc
        simp [replaceChars, hcp, ih hc2]
  simp only [jsReplace, replaceEvery, key s.data h]

/-! ## The results panel -/

theorem length_mapWithIndex {α β : Type} (f : α → Nat → β) (xs : List α) :
    (mapWithIndex f xs).length = xs.length := by
  simp [mapWithIndex]

theorem mapWithIndex_fst {α β γ : Type} (f : α → Nat → β) (g : β → γ) (h : α → γ)
    (hfg : ∀ a i, g (f a i) = h a) (xs : List α) :
    (mapWithIndex f xs).map g = xs.map h := by
  simp only [mapWithIndex, List.map_map]
  have : (g ∘ fun p : Nat × α => f p.2 p.1) = h ∘ Prod.snd := by
    funext p
    exact hfg p.2 p.1
  rw [this, ← List.map_map, List.enum_map_snd]

theorem mapWithIndex_snd {α β : Type} (f : α → Nat → β) (g : β → Nat)
    (hfg : ∀ a i, g (f a i) = i) (xs : List α) :
    (mapWithIndex f xs).map g = List.range xs.length := by
  simp only [mapWithIndex, List.map_map]
  have : (g ∘ fun p : Nat × α => f p.2 p.1) = Prod.fst := by
    funext p
    exact hfg p.2 p.1
  rw [this, List.enum_map_fst]

theorem cards_of_renderResults (P : Platform) (r : VideoAnalysisResult) :
    (renderResults P (some r)).map ResultsPanel.cards =
      some (mapWithIndex (commentCard P) r.toxic_comments) := by
  cases hr : r.toxic_comments with
  | nil => simp [renderResults, hr, mapWithIndex]
  | cons c cs => simp [renderResults, hr]

/-- C5 (as amended): for every successful video-analysis response stored as results, the
toxic-comment count shown in the results panel is the response's
`analysis_summary.toxic_comments_found`, verbatim, and exactly one comment card is rendered per
element of `toxic_comments`, in the sequence's order (card `i` shows author, text, likes and
date of element `i` and has key `i`). -/
theorem results_panel_shows_summary_and_cards (P : Platform) (v : ViewState)
    (r : VideoAnalysisResult) :
    (analyzeVideoResume v (.success r)).results = some r ∧
    ∃ panel, renderResults P (analyzeVideoResume v (.success r)).results = some panel ∧
      panel.toxicCommentsFound = r.analysis_summary.toxic_comments_found ∧
      panel.cards.length = r.toxic_comments.length ∧
      panel.cards.map (fun c => (c.author, c.text, c.likes, c.date)) =
        r.toxic_comments.map
          (fun c => (c.author, c.text, c.likes, formatDate P c.published_at)) ∧
      panel.cards.map CommentCard.key = List.range r.toxic_comments.length := by
  refine ⟨rfl, ?_⟩
  have hc := cards_of_renderResults P r
  show ∃ panel, renderResults P (some r) = some panel ∧ _
  cases hp : renderResults P (some r) with
  | none => simp [renderResults] at hp
  | some panel =>
    rw [hp] at hc
    simp only [Option.map_some', Option.some.injEq] at hc
    refine ⟨panel, rfl, ?_, ?_, ?_, ?_⟩
    · simp only [renderResults, Option.map_some', Option.some.injEq] at hp
      rw [← hp]
    · rw [hc, length_mapWithIndex]
    · rw [hc]
      exact mapWithIndex_fst (commentCard P) (fun c => (c.author, c.text, c.likes, c.date))
        (fun c => (c.author, c.text, c.likes, formatDate P c.published_at))
        (fun _ _ => rfl) r.toxic_comments
    · rw [hc]
      exact mapWithIndex_snd (commentCard P) CommentCard.key (fun _ _ => rfl) r.toxic_comments

/-- C5 fails as stated: a response whose summary reports 5 toxic comments while its
`toxic_comments` sequence is empty is shown with the count 5, not with the length 0. -/
theorem shown_count_is_not_the_length :
    (renderResults constPlatform
      (some { video_info := ⟨"t", "c", "10", "3"⟩
              analysis_summary := ⟨3, 5, 0⟩
              toxic_comments := [] })).map ResultsPanel.toxicCommentsFound = some 5 ∧
    (renderResults constPlatform
      (some { video_info := ⟨"t", "c", "10", "3"⟩
              analysis_summary := ⟨3, 5, 0⟩
              toxic_comments := [] })).map ResultsPanel.toxicCommentsFound ≠
      some (([] : List CommentRecord).length : Int) := by
  constructor <;> simp [renderResults]

/-! ## Submitting a request -/

theorem analyzeVideo_of_nonempty (w : World) (h : w.view.videoUrl ≠ "") :
    analyzeVideo w =
      { view := { w.view with loading := true, error := .str "", results := none }
        sent := w.sent ++ [⟨"POST", "/api/analyze-video", [("video_url", w.view.videoUrl)]⟩]
        pending := w.pending ++ [.video] } := by
  simp [analyzeVideo, h]

theorem testSingleComment_of_nonempty (w : World) (h : w.view.testComment ≠ "") :
    testSingleComment w =
      { view := { w.view with loading := true, error := .str "" }
        sent := w.sent ++ [⟨"POST", "/api/test-comment", [("comment", w.view.testComment)]⟩]
        pending := w.pending ++ [.comment] } := by
  simp [testSingleComment, h]

theorem sent_of_step_resolveVideo (w : World) (i : Nat) (o : Outcome VideoAnalysisResult) :
    (step w (.resolveVideo i o)).sent = w.sent := by
  by_cases h : w.pending[i]? = some .video <;> simp [step, h]

/-- C6: for every view state and every non-empty url, the synchronous part of `analyzeVideo`
leaves `loading = true`, `error = ''`, `results = null`, leaves `testResults` (and the two
input fields) unchanged, and issues exactly one POST, to `/api/analyze-video` with body
`{video_url: url}`; when that request or any other video request settles, with failure or
success, no further request is issued. -/
theorem analyzeVideo_submits_one_request (w : World) (h : w.view.videoUrl ≠ "") :
    (analyzeVideo w).view.loading = true ∧
    (analyzeVideo w).view.error = .str "" ∧
    (analyzeVideo w).view.results = none ∧
    (analyzeVideo w).view.testResults = w.view.testResults ∧
    (analyzeVideo w).view.videoUrl = w.view.videoUrl ∧
    (analyzeVideo w).view.testComment = w.view.testComment ∧
    (analyzeVideo w).sent =
      w.sent ++ [⟨"POST", "/api/analyze-video", [("video_url", w.view.videoUrl)]⟩] ∧
    (analyzeVideo w).pending = w.pending ++ [.video] ∧
    (∀ err, (step (analyzeVideo w) (.resolveVideo w.pending.length (.failure err))).sent =
        (analyzeVideo w).sent ∧
      (step (analyzeVideo w) (.resolveVideo w.pending.length (.failure err))).pending =
        w.pending) ∧
    (∀ i o, (step (analyzeVideo w) (.resolveVideo i o)).sent = (analyzeVideo w).sent) := by
  rw [analyzeVideo_of_nonempty w h]
  refine ⟨rfl, rfl, rfl, rfl, rfl, rfl, rfl, rfl, ?_, ?_⟩
  · intro err
    simp only [step, getElem?_snoc_length, if_true, eraseIdx_snoc_length, and_self]
  · intro i o
    exact sent_of_step_resolveVideo _ i o

/-- Witness for C6: the url `https://youtu.be/abc` typed into the fresh component. -/
theorem analyzeVideo_submits_one_request_witness :
    (worldWithInputs "https://youtu.be/abc" "").view.videoUrl ≠ "" ∧
    (analyzeVideo (worldWithInputs "https://youtu.be/abc" "")).view.loading = true ∧
    (analyzeVideo (worldWithInputs "https://youtu.be/abc" "")).sent =
      [⟨"POST", "/api/analyze-video", [("video_url", "https://youtu.be/abc")]⟩] :=
  ⟨by decide,
    (analyzeVideo_submits_one_request (worldWithInputs "https://youtu.be/abc" "")
      (by decide)).1,
    (analyzeVideo_submits_one_request (worldWithInputs "https://youtu.be/abc" "")
      (by decide)).2.2.2.2.2.2.1⟩

/-- C7: for every view state and every non-empty comment, the synchronous part of
`testSingleComment` sets `loading = true` and `error = ''` and leaves `testResults` and
`results` (and everything else of the view state) as they were; if that request then fails,
the view state differs from the one before the submission only in `error` and `loading`, so
`testResults` and `results` still have their prior values. -/
theorem testSingleComment_keeps_results (w : World) (h : w.view.testComment ≠ "") :
    (testSingleComment w).view = { w.view with loading := true, error := .str "" } ∧
    (testSingleComment w).view.testResults = w.view.testResults ∧
    (testSingleComment w).view.results = w.view.results ∧
    (testSingleComment w).sent =
      w.sent ++ [⟨"POST", "/api/test-comment", [("comment", w.view.testComment)]⟩] ∧
    ∀ err,
      (step (testSingleComment w) (.resolveComment w.pending.length (.failure err))).view =
        { w.view with
          loading := false
          error := ((err.response.optChain "data").optChain "error").or
            (.str "Failed to test comment") } ∧
      (step (testSingleComment w)
        (.resolveComment w.pending.length (.failure err))).view.testResults =
          w.view.testResults ∧
      (step (testSingleComment w)
        (.resolveComment w.pending.length (.failure err))).view.results = w.view.results := by
  rw [testSingleComment_of_nonempty w h]
  refine ⟨rfl, rfl, rfl, rfl, ?_⟩
  intro err
  simp only [step, getElem?_snoc_length, if_true]
  exact ⟨rfl, rfl, rfl⟩

/-- Witness for C7: a comment submitted while earlier results of both kinds are on display. -/
theorem testSingleComment_keeps_results_witness :
    displayingWorld.view.testComment ≠ "" ∧
    (testSingleComment displayingWorld).view.testResults = some sampleTestResult ∧
    (testSingleComment displayingWorld).view.results = some sampleVideoResult ∧
    (step (testSingleComment displayingWorld)
      (.resolveComment 0 (.failure ⟨.undefined⟩))).view.testResults = some sampleTestResult ∧
    (step (testSingleComment displayingWorld)
      (.resolveComment 0 (.failure ⟨.undefined⟩))).view.results = some sampleVideoResult :=
  ⟨by decide,
    (testSingleComment_keeps_results displayingWorld (by decide)).2.1,
    (testSingleComment_keeps_results displayingWorld (by decide)).2.2.1,
    ((testSingleComment_keeps_results displayingWorld (by decide)).2.2.2.2 ⟨.undefined⟩).2.1,
    ((testSingleComment_keeps_results displayingWorld (by decide)).2.2.2.2 ⟨.undefined⟩).2.2⟩

/-! ## The loading flag -/

theorem loading_of_analyzeVideoResume (v : ViewState) (o : Outcome VideoAnalysisResult) :
    (analyzeVideoResume v o).loading = false :=
  rfl

theorem loading_of_testSingleCommentResume (v : ViewState) (o : Outcome CommentTestResult) :
    (testSingleCommentResume v o).loading = false :=
  rfl

theorem loading_pending_step (w : World) (e : Event)
    (hw : w.view.loading = true → w.pending ≠ []) :
    (step w e).view.loading = true → (step w e).pending ≠ [] := by
  cases e with
  | setVideoUrl s => exact hw
  | setTestComment s => exact hw
  | clickAnalyze =>
    by_cases hd : analyzeDisabled w.view = true
    · simpa [step, hd] using hw
    · by_cases h : w.view.videoUrl = ""
      · simpa [step, hd, analyzeVideo, h] using hw
      · intro _
        simp [step, hd, analyzeVideo, h]
  | clickTest =>
    by_cases hd : testDisabled w.view = true
    · simpa [step, hd] using hw
    · by_cases h : w.view.testComment = ""
      · simpa [step, hd, testSingleComment, h] using hw
      · intro _
        simp [step, hd, testSingleComment, h]
  | callAnalyzeVideo =>
    by_cases h : w.view.videoUrl = ""
    · simpa [step, analyzeVideo, h] using hw
    · intro _
      simp [step, analyzeVideo, h]
  | callTestSingleComment =>
    by_cases h : w.view.testComment = ""
    · simpa [step, testSingleComment, h] using hw
    · intro _
      simp [step, testSingleComment, h]
  | resolveVideo i o =>
    by_cases h : w.pending[i]? = some .video
    · intro hl
      simp [step, h, loading_of_analyzeVideoResume] at hl
    · simpa [step, h] using hw
  | resolveComment i o =>
    by_cases h : w.pending[i]? = some .comment
    · intro hl
      simp [step, h, loading_of_testSingleCommentResume] at hl
    · simpa [step, h] using hw

theorem loading_pending_run (es : List Event) (w : World)
    (hw : w.view.loading = true → w.pending ≠ []) :
    (run w es).view.loading = true → (run w es).pending ≠ [] := by
  induction es generalizing w with
  | nil => exact hw
  | cons e es ih => exact ih (step w e) (loading_pending_step w e hw)

/-- C8: in every state reachable from the initial state by any sequence of edits of the two
input fields, clicks on the two buttons, invocations of `analyzeVideo` / `testSingleComment`
whatever the state of the buttons (with empty or non-empty input) and success / failure
settlements of pending requests, `loading = true` implies that at least one request is still
outstanding. -/
theorem loading_implies_request_outstanding (es : List Event) :
    (run World.initial es).view.loading = true → (run World.initial es).pending ≠ [] :=
  loading_pending_run es World.initial (fun h => absurd h (by decide))

/-- Witness for C8: a url and a comment are typed, Analyze is clicked, `testSingleComment` is
invoked while the video request is pending, the video request fails, Analyze is clicked
again: `loading` is true and requests are outstanding. -/
theorem loading_implies_request_outstanding_witness :
    (run World.initial
      [.setVideoUrl "u", .setTestComment "c", .clickAnalyze, .callTestSingleComment,
        .resolveVideo 0 (.failure ⟨.undefined⟩), .clickAnalyze]).view.loading = true ∧
    (run World.initial
      [.setVideoUrl "u", .setTestComment "c", .clickAnalyze, .callTestSingleComment,
        .resolveVideo 0 (.failure ⟨.undefined⟩), .clickAnalyze]).pending ≠ [] :=
  ⟨by decide, loading_implies_request_outstanding _ (by decide)⟩

/-! ## The test-results panel -/

/-- C9: for every comment-test success response whose `analysis.is_toxic` is false, once it
is stored as `testResults` the test-results panel is rendered and contains no toxicity badge,
whatever `analysis.scores` holds. -/
theorem no_badges_when_not_toxic (P : Platform) (v : ViewState) (t : CommentTestResult)
    (h : t.analysis.is_toxic = false) :
    (testSingleCommentResume v (.success t)).testResults = some t ∧
    ∃ panel, renderTestResults P (testSingleCommentResume v (.success t)).testResults =
        some panel ∧
      panel.commentText = t.comment ∧ panel.badges = [] := by
  refine ⟨rfl, ?_⟩
  show ∃ panel, renderTestResults P (some t) = some panel ∧ _
  refine ⟨_, rfl, rfl, ?_⟩
  simp [h]

/-- Witness for C9: a response that is not flagged toxic although two of its scores are
above 0.5; the same scores do produce badges when handed to `getToxicityBadges`. -/
theorem no_badges_when_not_toxic_witness :
    unflaggedTestResult.analysis.is_toxic = false ∧
    (getToxicityBadges constPlatform unflaggedTestResult.analysis.scores).map Badge.key =
      ["toxic", "threat"] ∧
    ∃ panel, renderTestResults constPlatform
        (testSingleCommentResume ViewState.initial (.success unflaggedTestResult)).testResults =
          some panel ∧
      panel.commentText = unflaggedTestResult.comment ∧ panel.badges = [] := by
  refine ⟨rfl, ?_,
    (no_badges_when_not_toxic constPlatform ViewState.initial unflaggedTestResult rfl).2⟩
  rw [keys_of_getToxicityBadges]
  norm_num [unflaggedTestResult, List.filter]

/-! ## Submissions through the buttons -/

theorem settled_initial : Settled World.initial := by
  simp [Settled, World.initial, ViewState.initial]

theorem settled_step (w : World) (e : Event) (he : e.viaUi = true) (hw : Settled w) :
    Settled (step w e) := by
  unfold Settled at hw ⊢
  cases e with
  | setVideoUrl s => exact hw
  | setTestComment s => exact hw
  | clickAnalyze =>
    by_cases hl : w.view.loading = true
    · simpa [step, analyzeDisabled, hl] using hw
    · by_cases h : w.view.videoUrl = ""
      · simpa [step, analyzeDisabled, hl, h] using hw
      · simp only [hl, if_false, Bool.false_eq_true] at hw
        simp [step, analyzeDisabled, hl, h, analyzeVideo, hw]
  | clickTest =>
    by_cases hl : w.view.loading = true
    · simpa [step, testDisabled, hl] using hw
    · by_cases h : w.view.testComment = ""
      · simpa [step, testDisabled, hl, h] using hw
      · simp only [hl, if_false, Bool.false_eq_true] at hw
        simp [step, testDisabled, hl, h, testSingleComment, hw]
  | callAnalyzeVideo => exact absurd he (by decide)
  | callTestSingleComment => exact absurd he (by decide)
  | resolveVideo i o =>
    by_cases h : w.pending[i]? = some .video
    · have hi : i < w.pending.length := by
        rcases List.getElem?_eq_some_iff.mp h with ⟨hi, _⟩
        exact hi
      have hlen : w.pending.length = 1 := by
        by_cases hl : w.view.loading = true
        · simpa [hl] using hw
        · simp only [hl, if_false, Bool.false_eq_true] at hw
          omega
      simp only [step, h, if_true, loading_of_analyzeVideoResume, if_false,
        Bool.false_eq_true, List.length_eraseIdx, hi]
      omega
    · simpa [step, h] using hw
  | resolveComment i o =>
    by_cases h : w.pending[i]? = some .comment
    · have hi : i < w.pending.length := by
        rcases List.getElem?_eq_some_iff.mp h with ⟨hi, _⟩
        exact hi
      have hlen : w.pending.length = 1 := by
        by_cases hl : w.view.loading = true
        · simpa [hl] using hw
        · simp only [hl, if_false, Bool.false_eq_true] at hw
          omega
      simp only [step, h, if_true, loading_of_testSingleCommentResume, if_false,
        Bool.false_eq_true, List.length_eraseIdx, hi]
      omega
    · simpa [step, h] using hw

theorem settled_run (es : List Event) (hes : ∀ e ∈ es, e.viaUi = true) (w : World)
    (hw : Settled w) : Settled (run w es) := by
  induction es generalizing w with
  | nil => exact hw
  | cons e es ih =>
    exact ih (fun x hx => hes x (List.mem_cons_of_mem e hx)) (step w e)
      (settled_step w e (hes e (List.mem_cons_self e es)) hw)

theorem view_of_click_then_settle (w : World) (hp : w.pending = [])
    (hl : w.view.loading = false) (hu : w.view.videoUrl ≠ "")
    (o : Outcome VideoAnalysisResult) :
    (run w [.clickAnalyze, .resolveVideo 0 o]).view =
      analyzeVideoResume { w.view with loading := true, error := .str "", results := none } o ∧
    (run w [.clickAnalyze, .resolveVideo 0 o]).pending = [] := by
  have h1 : step w .clickAnalyze =
      { view := { w.view with loading := true, error := .str "", results := none }
        sent := w.sent ++ [⟨"POST", "/api/analyze-video", [("video_url", w.view.videoUrl)]⟩]
        pending := [.video] } := by
    simp [step, analyzeDisabled, hl, hu, analyzeVideo, hp]
  show (step (step w .clickAnalyze) (.resolveVideo 0 o)).view = _ ∧
    (step (step w .clickAnalyze) (.resolveVideo 0 o)).pending = []
  rw [h1]
  simp [step]

/-- C10 (as amended): a video-analysis submission cannot be issued while a previous request
is still pending.  In every state that the mounted component reaches (edits, clicks and
settlements, in any order) at most one request is outstanding, and while one is outstanding
a click on Analyze issues no request and changes nothing.  When none is outstanding and the
url is non-empty, a click on Analyze issues one request, and once that request has settled
nothing is pending and `(results, error, loading)` reflects only its response: the payload,
`''` and `false` after a success, `null`, the failure message and `false` after a failure,
with nothing left over from earlier responses. -/
theorem one_submission_at_a_time (es : List Event) (hes : ∀ e ∈ es, e.viaUi = true) :
    (run World.initial es).pending.length ≤ 1 ∧
    ((run World.initial es).pending ≠ [] →
      step (run World.initial es) .clickAnalyze = run World.initial es) ∧
    ((run World.initial es).pending = [] → (run World.initial es).view.videoUrl ≠ "" →
      (step (run World.initial es) .clickAnalyze).pending = [.video] ∧
      (step (run World.initial es) .clickAnalyze).sent =
        (run World.initial es).sent ++
          [⟨"POST", "/api/analyze-video",
            [("video_url", (run World.initial es).view.videoUrl)]⟩] ∧
      (∀ data,
        (run (run World.initial es)
          [.clickAnalyze, .resolveVideo 0 (.success data)]).pending = [] ∧
        (run (run World.initial es)
          [.clickAnalyze, .resolveVideo 0 (.success data)]).view.videoCells =
            (some data, .str "", false)) ∧
      (∀ err,
        (run (run World.initial es)
          [.clickAnalyze, .resolveVideo 0 (.failure err)]).pending = [] ∧
        (run (run World.initial es)
          [.clickAnalyze, .resolveVideo 0 (.failure err)]).view.videoCells =
            (none,
              ((err.response.optChain "data").optChain "error").or
                (.str "Failed to analyze video"),
              false))) := by
  have hs : Settled (run World.initial es) := settled_run es hes World.initial settled_initial
  unfold Settled at hs
  refine ⟨?_, ?_, ?_⟩
  · rw [hs]
    split <;> omega
  · intro hne
    have hl : (run World.initial es).view.loading = true := by
      by_cases hl : (run World.initial es).view.loading = true
      · exact hl
      · simp only [hl, if_false, Bool.false_eq_true, List.length_eq_zero] at hs
        exact absurd hs hne
    simp [step, analyzeDisabled, hl]
  · intro hp hu
    have hl : (run World.initial es).view.loading = false := by
      by_cases hl : (run World.initial es).view.loading = true
      · simp [hl, hp] at hs
      · simpa using hl
    refine ⟨?_, ?_, ?_, ?_⟩
    · simp [step, analyzeDisabled, hl, hu, analyzeVideo, hp]
    · simp [step, analyzeDisabled, hl, hu, analyzeVideo]
    · intro data
      have h := view_of_click_then_settle _ hp hl hu (.success data)
      refine ⟨h.2, ?_⟩
      rw [h.1]
      rfl
    · intro err
      have h := view_of_click_then_settle _ hp hl hu (.failure err)
      refine ⟨h.2, ?_⟩
      rw [h.1]
      rfl

/-- Witness for C10 (as amended): while the request for the url `u` is pending a click on
Analyze changes nothing; after that request has succeeded, a new submission that fails
leaves `results = null` and the fallback message. -/
theorem one_submission_at_a_time_witness :
    (run World.initial [.setVideoUrl "u", .clickAnalyze]).pending ≠ [] ∧
    step (run World.initial [.setVideoUrl "u", .clickAnalyze]) .clickAnalyze =
      run World.initial [.setVideoUrl "u", .clickAnalyze] ∧
    (run World.initial
      [.setVideoUrl "u", .clickAnalyze, .resolveVideo 0 (.success sampleVideoResult)]).pending
        = [] ∧
    (run World.initial
      [.setVideoUrl "u", .clickAnalyze,
        .resolveVideo 0 (.success sampleVideoResult)]).view.videoUrl ≠ "" ∧
    (run (run World.initial
        [.setVideoUrl "u", .clickAnalyze, .resolveVideo 0 (.success sampleVideoResult)])
      [.clickAnalyze, .resolveVideo 0 (.failure ⟨.undefined⟩)]).view.videoCells =
        (none, (JsVal.undefined).or (.str "Failed to analyze video"), false) :=
  ⟨by decide,
    (one_submission_at_a_time [.setVideoUrl "u", .clickAnalyze] (by decide)).2.1 (by decide),
    by decide, by decide,
    (((one_submission_at_a_time
      [.setVideoUrl "u", .clickAnalyze, .resolveVideo 0 (.success sampleVideoResult)]
      (by decide)).2.2 (by decide) (by decide)).2.2.2 ⟨.undefined⟩).2⟩

/-- C10 fails as stated: it speaks of a second submission issued while the first is pending,
yet after a url is typed and Analyze is clicked twice exactly one request has been sent and
exactly one is pending, the second click having changed nothing; once that request has
settled nothing is pending, so no response of a second submission can arrive. -/
theorem second_click_issues_no_request :
    (run World.initial [.setVideoUrl "u", .clickAnalyze, .clickAnalyze]).sent =
      [⟨"POST", "/api/analyze-video", [("video_url", "u")]⟩] ∧
    (run World.initial [.setVideoUrl "u", .clickAnalyze, .clickAnalyze]).pending = [.video] ∧
    (run World.initial [.setVideoUrl "u", .clickAnalyze, .clickAnalyze]).sent.length ≠ 2 ∧
    (run World.initial [.setVideoUrl "u", .clickAnalyze, .clickAnalyze,
      .resolveVideo 0 (.success sampleVideoResult)]).pending = [] ∧
    (run World.initial [.setVideoUrl "u", .clickAnalyze, .clickAnalyze,
      .resolveVideo 0 (.success sampleVideoResult)]).view.results = some sampleVideoResult := by
  refine ⟨by decide, by decide, by decide, by decide, by decide⟩

end SafeSpeak
